import Mathlib

/-!
Shallow embedding of `src/main.py` (the PJSK guess-the-picture plugin).

The plugin keeps a process-wide dict `active_games : session_id → game_data`
and exposes three handlers: `start_game` (command 猜图), `process_guess`
(command 猜) and the timeout machinery inside `game_session`.  Pure helpers
(`is_correct_answer`, `crop_random_region`, `save_cropped_image`,
`get_character_images`, `get_random_image`) are embedded as Lean functions;
the handlers are embedded as state transformers `PluginState → PluginState × List Msg`
where `Msg` records the user-visible side effects (`yield event.plain_result`
/ `yield event.image_result`).  Randomness (`random.choice`, `random.randint`)
is embedded by passing a seed and reducing it modulo the allowed range, and
wall-clock time by passing explicit numeric / string timestamps.
-/

/-- Python `str.lower()` on one character, for the ASCII range (the only
case folding both Python and this development need on the inputs involved:
CJK characters are unaffected by `lower()`). -/
def pyLowerChar (c : Char) : Char :=
  if c.isUpper then Char.ofNat (c.toNat + 32) else c

/-- Python `str.lower()` (ASCII case folding, identity elsewhere). -/
def pyLower (s : String) : String := String.mk (s.data.map pyLowerChar)

/-- Python `str.strip()`: drop leading and trailing whitespace. -/
def pyStrip (s : String) : String :=
  String.mk (((s.data.dropWhile Char.isWhitespace).reverse.dropWhile
    Char.isWhitespace).reverse)

/-- A user-visible outbound message: `event.plain_result s` or
`event.image_result path`. -/
inductive Msg where
  | plain (s : String)
  | image (path : String)
deriving DecidableEq, Repr

/-- One entry of `self.active_games`: the dict built at `main.py:181`. -/
structure GameData where
  character : String
  attempts : Nat
  max_attempts : Nat
  start_time : Nat
  image_path : String
  cropped_path : String
deriving DecidableEq, Repr

/-- The plugin's mutable state: the `active_games` dict (as an association
list with dict lookup semantics) plus the set of teaser artifact files
currently existing on disk (written by `save_cropped_image`, removed by the
cleanup in `start_game`'s finally block). -/
structure PluginState where
  active_games : List (String × GameData)
  files : List String
deriving DecidableEq, Repr

/-- Dict lookup: `self.active_games.get(sid)` / `sid in self.active_games`. -/
def lookupGame : List (String × GameData) → String → Option GameData
  | [], _ => none
  | (k, v) :: rest, sid => if k = sid then some v else lookupGame rest sid

/-- Dict deletion: `del self.active_games[sid]` (no-op when absent). -/
def eraseGame (gs : List (String × GameData)) (sid : String) : List (String × GameData) :=
  gs.filter (fun kv => kv.1 ≠ sid)

/-- Dict assignment: `self.active_games[sid] = g`. -/
def setGame (gs : List (String × GameData)) (sid : String) (g : GameData) :
    List (String × GameData) :=
  (sid, g) :: eraseGame gs sid

/-- `is_correct_answer` (main.py:143-158): the guess is stripped and
lowercased, then compared against the lowercased (NOT stripped) canonical
name and against each lowercased (NOT stripped) alias.  `aliases` embeds
`self.aliases.get(character, [])`. -/
def is_correct_answer (aliases : String → List String) (guess character : String) : Bool :=
  let normalized_guess := pyLower (pyStrip guess)
  if normalized_guess = pyLower character then true
  else (aliases character).any (fun a => normalized_guess = pyLower a)

/-- The matcher as §4.3 of the spec words it: trim surrounding whitespace and
case-fold BOTH the guess and the answer/aliases, then compare for equality.
Used only to compare the spec's wording with `is_correct_answer`. -/
def matches_spec (guess answer : String) (aliases : List String) : Bool :=
  let n := fun s : String => pyLower (pyStrip s)
  n guess = n answer || aliases.any (fun a => n guess = n a)

/-- `random.randint(0, n)`: a uniformly drawn value in `[0, n]`, embedded by
reducing a seed modulo `n + 1`. -/
def pyRandint (seed n : Nat) : Nat := seed % (n + 1)

/-- The crop rectangle returned by `img.crop((left, top, right, bottom))`. -/
structure CropBox where
  left : Nat
  top : Nat
  right : Nat
  bottom : Nat
deriving DecidableEq, Repr

/-- `crop_random_region` (main.py:120-132): clamp the configured crop size to
`min(crop_size, width, height)`, draw `left ∈ [0, width - crop_size]` and
`top ∈ [0, height - crop_size]`, and crop the square of that side. -/
def crop_random_region (crop_size w h seedL seedT : Nat) : CropBox :=
  let cs := min crop_size (min w h)
  let left := pyRandint seedL (w - cs)
  let top := pyRandint seedT (h - cs)
  ⟨left, top, left + cs, top + cs⟩

/-- `save_cropped_image` (main.py:134-141): the output path is
`{image_dir}/cropped/cropped_{timestamp}.jpg` where `timestamp` is
`datetime.now().strftime` at SECOND resolution; the image content plays no
part in the file name. -/
def save_cropped_image (image_dir : String) (cropped_img : CropBox) (ts : String) : String :=
  image_dir ++ "/cropped/cropped_" ++ ts ++ ".jpg"

/-- `random.choice(images)` followed by `Image.open` (main.py:105-118):
`none` when the pool is empty or when the drawn path is unreadable, otherwise
the drawn `(character, image_path)` pair. -/
def get_random_image (pool : List (String × String)) (choice : Nat)
    (loadable : String → Bool) : Option (String × String) :=
  if pool.isEmpty then none
  else
    let pick := pool.getD (choice % pool.length) ("", "")
    if loadable pick.2 then some pick else none

/-- `process_guess` (main.py:211-241).  NOTE (faithful to the source): the
attempts counter is incremented on every guess while the entry exists, and no
branch of this handler removes the entry from `active_games`; removal only
happens later, in `start_game`'s finally block. -/
def process_guess (aliases : String → List String) (st : PluginState)
    (sid guess : String) : PluginState × List Msg :=
  match lookupGame st.active_games sid with
  | none => (st, [Msg.plain "当前没有进行中的游戏，请先发送 /猜图 开始游戏"])
  | some game =>
    let game2 : GameData :=
      ⟨game.character, game.attempts + 1, game.max_attempts, game.start_time,
        game.image_path, game.cropped_path⟩
    let st2 : PluginState := ⟨setGame st.active_games sid game2, st.files⟩
    if is_correct_answer aliases guess game.character then
      (st2, [Msg.image game.image_path,
             Msg.plain ("恭喜你猜对了！正确答案是: " ++ game.character)])
    else if game2.attempts ≥ game2.max_attempts then
      (st2, [Msg.image game.image_path,
             Msg.plain ("游戏结束，正确答案是: " ++ game.character)])
    else
      (st2, [Msg.plain "不对哦"])

/-- `start_game` (main.py:160-192), the synchronous prefix up to
`await self.game_session(event)`: reject when a game is already active for the
scope, abort when the draw fails, otherwise crop, save the teaser, register
the session and emit the teaser plus the prompt. -/
def start_game (st : PluginState) (sid : String)
    (pool : List (String × String)) (choice : Nat) (loadable : String → Bool)
    (image_dir : String) (cropped : CropBox) (ts : String)
    (max_attempts now : Nat) : PluginState × List Msg :=
  if (lookupGame st.active_games sid).isSome then
    (st, [Msg.plain "你已经在进行一局游戏了！"])
  else
    match get_random_image pool choice loadable with
    | none => (st, [Msg.plain "获取图片失败，请稍后再试"])
    | some (character, image_path) =>
      let cropped_path := save_cropped_image image_dir cropped ts
      let game : GameData := ⟨character, 0, max_attempts, now, image_path, cropped_path⟩
      (⟨setGame st.active_games sid game, cropped_path :: st.files⟩,
        [Msg.image cropped_path,
         Msg.plain "猜猜这是哪位角色？发送 /猜+角色名 来回答，例如：/猜 初音未来"])

/-- The `game_waiter` body (main.py:248-260), fired on an incoming event at
time `now`: if the scope has no entry it stops silently; otherwise, when the
elapsed time reaches the timeout, it re-sends the full image and the
timed-out message.  It never mutates `active_games` or the files. -/
def game_waiter (st : PluginState) (sid : String) (timeLimit now : Nat) : List Msg :=
  match lookupGame st.active_games sid with
  | none => []
  | some game =>
    if now - game.start_time ≥ timeLimit then
      [Msg.image game.image_path, Msg.plain "时间到，游戏结束！"]
    else []

/-- The `except TimeoutError` branch of `game_session` (main.py:264-270):
when the waiter times out, if the scope still has an entry, re-send the full
image and the timed-out message. -/
def timeout_handler (st : PluginState) (sid : String) : List Msg :=
  match lookupGame st.active_games sid with
  | none => []
  | some game => [Msg.image game.image_path, Msg.plain "时间到，游戏结束！"]

/-- The finally block of `start_game` (main.py:197-209), run when
`game_session` returns: if the scope still has an entry, delete its teaser
artifact (tolerating absence) and remove the entry. -/
def session_cleanup (st : PluginState) (sid : String) : PluginState :=
  match lookupGame st.active_games sid with
  | none => st
  | some game =>
    ⟨eraseGame st.active_games sid, st.files.filter (fun f => f ≠ game.cropped_path)⟩

/-- `Path(name).stem` for names matched by `glob("*.jpg")`: the name without
its trailing `.jpg`; pathlib treats a sole leading dot as not starting a
suffix, so the name `".jpg"` is its own stem. -/
def pyStem (name : String) : String :=
  if name = ".jpg" then name else String.mk (name.data.take (name.data.length - 4))

/-- Python `str.split(sep)` for a one-character separator, accumulator form:
`acc` holds the reversed characters of the piece being built. -/
def pySplitAux (sep : Char) : List Char → List Char → List (List Char)
  | [], acc => [acc.reverse]
  | c :: cs, acc =>
    if c = sep then acc.reverse :: pySplitAux sep cs [] else pySplitAux sep cs (c :: acc)

/-- Python `str.split(sep)` for a one-character separator: always returns at
least one piece (splitting the empty string gives `[""]`). -/
def pySplit (sep : Char) (s : String) : List String :=
  (pySplitAux sep s.data []).map (fun l => String.mk l)

/-- The prefix of a string up to (excluding) its first underscore — the whole
string when it has none.  Spec-level description of `stem.split("_")[0]`. -/
def upToFirstUnderscore (s : String) : String :=
  String.mk (s.data.takeWhile (fun c => c ≠ '_'))

/-- `name.endswith(".jpg")`: whether `glob("*.jpg")` matches the file name. -/
def isJpg (f : String) : Bool := ['.', 'j', 'p', 'g'].isSuffixOf f.data

/-- The body of the loop in `get_character_images` (main.py:98-102): split
the stem on `_` and, when the split has at least one piece, contribute
`(parts[0], file)`. -/
def poolEntry (file : String) : Option (String × String) :=
  let parts := pySplit '_' (pyStem file)
  if parts.length ≥ 1 then some (parts.headD "", file) else none

/-- `get_character_images` (main.py:90-103): the empty pool when `image_dir`
is not a directory, otherwise one candidate per `*.jpg` file of the listing. -/
def get_character_images (is_dir : Bool) (listing : List String) : List (String × String) :=
  if is_dir = false then [] else (listing.filter isJpg).filterMap poolEntry

/-- The default alias table restricted to 初音未来 (main.py:62), as
`self.aliases.get(character, [])`. -/
def al0 : String → List String := fun c =>
  if c = "初音未来" then ["初音", "miku", "Hatsune Miku", "ミク"] else []

/-- A concrete active session for scope `g1`, five attempts allowed. -/
def game0 : GameData :=
  ⟨"初音未来", 0, 5, 0, "/imgs/初音未来_1.jpg", "/imgs/cropped/cropped_20250101000000.jpg"⟩

/-- A concrete plugin state: one active game at scope `g1`, its teaser on disk. -/
def st0 : PluginState := ⟨[("g1", game0)], ["/imgs/cropped/cropped_20250101000000.jpg"]⟩

/-- A concrete active session for scope `g2` with `max_attempts = 1`. -/
def game1 : GameData := ⟨"初音未来", 0, 1, 0, "/imgs/初音未来_1.jpg", "/c.jpg"⟩

/-- A concrete plugin state: one active game at scope `g2`. -/
def st1 : PluginState := ⟨[("g2", game1)], ["/c.jpg"]⟩

/-- C1: the claim says that immediately after a correct guess the Registry
entry is removed, so a later lookup observes no active session.  In the code,
`process_guess` reveals the full image on a correct guess but no branch of it
deletes `active_games[session_id]`; deletion only happens in `start_game`'s
finally block once the session waiter ends.  Evaluated at a concrete active
session, the correct guess emits the reveal messages, yet the lookup right
after still returns the session (with `attempts` bumped to 1), not `none`. -/
theorem C1_resolved_entry_not_removed :
    (process_guess al0 st0 "g1" "miku").2 =
      [Msg.image "/imgs/初音未来_1.jpg", Msg.plain "恭喜你猜对了！正确答案是: 初音未来"] ∧
    lookupGame (process_guess al0 st0 "g1" "miku").1.active_games "g1" =
      some ⟨"初音未来", 1, 5, 0, "/imgs/初音未来_1.jpg",
        "/imgs/cropped/cropped_20250101000000.jpg"⟩ := by
  decide

/-- C2: the claim says a timeout firing after the round was resolved by a
correct guess is a no-op with no further user-visible message.  Both timeout
paths in the code (`except TimeoutError` and the in-waiter elapsed check)
guard only on `session_id in self.active_games`, and a correct guess does not
remove that entry; so, evaluated on the state right after a correct guess,
both paths re-send the full image and the timed-out message instead of doing
nothing. -/
theorem C2_timeout_after_resolution_not_noop :
    timeout_handler (process_guess al0 st0 "g1" "miku").1 "g1" =
      [Msg.image "/imgs/初音未来_1.jpg", Msg.plain "时间到，游戏结束！"] ∧
    game_waiter (process_guess al0 st0 "g1" "miku").1 "g1" 60 100 =
      [Msg.image "/imgs/初音未来_1.jpg", Msg.plain "时间到，游戏结束！"] := by
  decide

/-- C3: the claim says `attempts` never exceeds `max_attempts` and that no
further guess is evaluated after exhaustion.  With `max_attempts = 1`, the
first wrong guess emits the exhausted messages but leaves the entry in
`active_games`; a second guess is then still evaluated (it emits the
exhausted messages again rather than the no-active-round message) and drives
`attempts` to 2, strictly above `max_attempts = 1`. -/
theorem C3_attempts_exceed_max :
    (process_guess al0 st1 "g2" "a").2 =
      [Msg.image "/imgs/初音未来_1.jpg", Msg.plain "游戏结束，正确答案是: 初音未来"] ∧
    (process_guess al0 (process_guess al0 st1 "g2" "a").1 "g2" "b").2 =
      [Msg.image "/imgs/初音未来_1.jpg", Msg.plain "游戏结束，正确答案是: 初音未来"] ∧
    lookupGame (process_guess al0 (process_guess al0 st1 "g2" "a").1 "g2" "b").1.active_games
      "g2" = some ⟨"初音未来", 2, 1, 0, "/imgs/初音未来_1.jpg", "/c.jpg"⟩ := by
  decide

/-- C4: starting a round for a scope that already has an active session is
rejected with the already-active message and the state is returned unchanged:
no second session is created and the existing entry is untouched, so the
Registry still holds at most one session for the scope. -/
theorem C4_already_active_rejected (st : PluginState) (sid : String) (g : GameData)
    (pool : List (String × String)) (choice : Nat) (loadable : String → Bool)
    (image_dir : String) (cropped : CropBox) (ts : String) (ma now : Nat)
    (h : lookupGame st.active_games sid = some g) :
    start_game st sid pool choice loadable image_dir cropped ts ma now =
      (st, [Msg.plain "你已经在进行一局游戏了！"]) := by
  simp [start_game, h]

/-- Witness for C4 at a concrete state: scope `g1` already has `game0`. -/
theorem C4_witness :
    lookupGame st0.active_games "g1" = some game0 ∧
    start_game st0 "g1" [] 0 (fun _ => true) "/d" ⟨0, 0, 1, 1⟩ "t" 5 0 =
      (st0, [Msg.plain "你已经在进行一局游戏了！"]) :=
  ⟨by decide,
   C4_already_active_rejected st0 "g1" game0 [] 0 (fun _ => true) "/d" ⟨0, 0, 1, 1⟩ "t" 5 0
     (by decide)⟩

/-- C5 counterexample: the claim says the matcher compares the trimmed,
case-folded guess against the trimmed, case-folded answer and aliases.  The
code trims only the guess: against the canonical answer `" miku "` (or an
alias with surrounding whitespace) the spec's matcher succeeds on guess
`"miku"` while `is_correct_answer` fails. -/
theorem C5_counterexample :
    matches_spec "miku" " miku " [] = true ∧
    is_correct_answer (fun _ => []) "miku" " miku " = false := by
  decide

/-- C5 (amended): the matcher succeeds iff the stripped, lowercased guess
equals the lowercased (untrimmed) canonical answer or the lowercased
(untrimmed) form of some alias; the concrete examples of the claim hold:
`"Miku"`, `" miku "`, `"MIKU"` against `"初音未来"` with alias `"miku"` all
succeed, and `"mik u"` fails. -/
theorem C5_matcher_characterization :
    (∀ (aliases : String → List String) (guess character : String),
      is_correct_answer aliases guess character = true ↔
        (pyLower (pyStrip guess) = pyLower character ∨
          ∃ a ∈ aliases character, pyLower (pyStrip guess) = pyLower a)) ∧
    is_correct_answer al0 "Miku" "初音未来" = true ∧
    is_correct_answer al0 " miku " "初音未来" = true ∧
    is_correct_answer al0 "MIKU" "初音未来" = true ∧
    is_correct_answer al0 "mik u" "初音未来" = false := by
  refine ⟨?_, by decide, by decide, by decide, by decide⟩
  intro aliases guess character
  unfold is_correct_answer
  by_cases hc : pyLower (pyStrip guess) = pyLower character
  · simp [hc]
  · simp [hc, List.any_eq_true]

/-- C6: when the draw fails (empty candidate pool, or the drawn asset is not
loadable), `start_game` aborts with only the failure message: the state is
returned unchanged, the scope still has no entry afterwards, and no teaser
artifact file is produced. -/
theorem C6_failed_draw_aborts (st : PluginState) (sid : String)
    (pool : List (String × String)) (choice : Nat) (loadable : String → Bool)
    (image_dir : String) (cropped : CropBox) (ts : String) (ma now : Nat)
    (h1 : lookupGame st.active_games sid = none)
    (h2 : pool = [] ∨ loadable (pool.getD (choice % pool.length) ("", "")).2 = false) :
    start_game st sid pool choice loadable image_dir cropped ts ma now =
      (st, [Msg.plain "获取图片失败，请稍后再试"]) ∧
    lookupGame (start_game st sid pool choice loadable image_dir cropped ts ma now).1.active_games
      sid = none ∧
    (start_game st sid pool choice loadable image_dir cropped ts ma now).1.files = st.files := by
  have hd : get_random_image pool choice loadable = none := by
    rcases h2 with h | h
    · subst h; rfl
    · unfold get_random_image
      split
      · rfl
      · simp [List.getD] at h
        simp [h]
  refine ⟨?_, ?_, ?_⟩ <;> simp [start_game, h1, hd]

/-- Witness for C6 at a concrete state: scope `g9` has no session and the
pool is empty. -/
theorem C6_witness :
    lookupGame st0.active_games "g9" = none ∧
    start_game st0 "g9" [] 0 (fun _ => true) "/d" ⟨0, 0, 1, 1⟩ "t" 5 0 =
      (st0, [Msg.plain "获取图片失败，请稍后再试"]) :=
  ⟨by decide,
   (C6_failed_draw_aborts st0 "g9" [] 0 (fun _ => true) "/d" ⟨0, 0, 1, 1⟩ "t" 5 0
      (by decide) (Or.inl rfl)).1⟩

/-- C7 counterexample: the claim says a start from a scope not on the
configured allow-list is rejected with a ScopeNotAllowed message and creates
no session.  The code contains no allow-list (no such configuration key and
no check in `start_game`): a start from an arbitrary scope with no active
session and a successful draw registers a session and emits the teaser and
prompt — no rejection of any kind. -/
theorem C7_counterexample :
    lookupGame (start_game ⟨[], []⟩ "scope_x" [("初音未来", "a.jpg")] 0 (fun _ => true)
        "/d" ⟨0, 0, 1, 1⟩ "20250101120000" 5 0).1.active_games "scope_x" =
      some ⟨"初音未来", 0, 5, 0, "a.jpg", "/d/cropped/cropped_20250101120000.jpg"⟩ ∧
    (start_game ⟨[], []⟩ "scope_x" [("初音未来", "a.jpg")] 0 (fun _ => true)
        "/d" ⟨0, 0, 1, 1⟩ "20250101120000" 5 0).2 =
      [Msg.image "/d/cropped/cropped_20250101120000.jpg",
       Msg.plain "猜猜这是哪位角色？发送 /猜+角色名 来回答，例如：/猜 初音未来"] := by
  decide

/-- C7 (amended): `start_game` performs no scope allow-list check.  For every
scope identifier whatsoever, a start request with no active session and a
successful draw creates the session and emits exactly the teaser and the
prompt; no ScopeNotAllowed rejection exists in the code. -/
theorem C7_no_allowlist_check (st : PluginState) (sid : String)
    (pool : List (String × String)) (choice : Nat) (loadable : String → Bool)
    (image_dir : String) (cropped : CropBox) (ts : String) (ma now : Nat) (c p : String)
    (h1 : lookupGame st.active_games sid = none)
    (h2 : get_random_image pool choice loadable = some (c, p)) :
    start_game st sid pool choice loadable image_dir cropped ts ma now =
      (⟨setGame st.active_games sid
          ⟨c, 0, ma, now, p, save_cropped_image image_dir cropped ts⟩,
        save_cropped_image image_dir cropped ts :: st.files⟩,
       [Msg.image (save_cropped_image image_dir cropped ts),
        Msg.plain "猜猜这是哪位角色？发送 /猜+角色名 来回答，例如：/猜 初音未来"]) := by
  simp [start_game, h1, h2]

/-- Witness for C7 (amended) at a concrete scope and pool. -/
theorem C7_witness :
    lookupGame (PluginState.mk [] []).active_games "scope_y" = none ∧
    get_random_image [("初音未来", "a.jpg")] 0 (fun _ => true) = some ("初音未来", "a.jpg") ∧
    start_game ⟨[], []⟩ "scope_y" [("初音未来", "a.jpg")] 0 (fun _ => true)
        "/d" ⟨0, 0, 1, 1⟩ "t" 5 0 =
      (⟨setGame [] "scope_y" ⟨"初音未来", 0, 5, 0, "a.jpg",
          save_cropped_image "/d" ⟨0, 0, 1, 1⟩ "t"⟩,
        save_cropped_image "/d" ⟨0, 0, 1, 1⟩ "t" :: []⟩,
       [Msg.image (save_cropped_image "/d" ⟨0, 0, 1, 1⟩ "t"),
        Msg.plain "猜猜这是哪位角色？发送 /猜+角色名 来回答，例如：/猜 初音未来"]) :=
  ⟨by decide, by decide,
   C7_no_allowlist_check ⟨[], []⟩ "scope_y" [("初音未来", "a.jpg")] 0 (fun _ => true)
     "/d" ⟨0, 0, 1, 1⟩ "t" 5 0 "初音未来" "a.jpg" (by decide) (by decide)⟩

/-- C8: for positive source dimensions and crop size, the teaser is a square
crop of side `min crop_size (min w h)` that lies entirely within the source
bounds, and its area is strictly below the source area except when the crop
degrades to the whole image, which happens only when both source dimensions
fit within the configured crop size (a square source no larger than the crop
size). -/
theorem C8_crop_square_partial_in_bounds (crop_size w h seedL seedT : Nat)
    (hw : 1 ≤ w) (hh : 1 ≤ h) (hc : 1 ≤ crop_size) :
    ∃ s left top,
      crop_random_region crop_size w h seedL seedT = ⟨left, top, left + s, top + s⟩ ∧
      left + s ≤ w ∧ top + s ≤ h ∧
      (s * s < w * h ∨
        (crop_random_region crop_size w h seedL seedT = ⟨0, 0, w, h⟩ ∧
          w ≤ crop_size ∧ h ≤ crop_size)) := by
  refine ⟨min crop_size (min w h), seedL % (w - min crop_size (min w h) + 1),
    seedT % (h - min crop_size (min w h) + 1), rfl, ?_, ?_, ?_⟩
  · have h1 : seedL % (w - min crop_size (min w h) + 1) < w - min crop_size (min w h) + 1 :=
      Nat.mod_lt _ (Nat.succ_pos _)
    have h2 : min crop_size (min w h) ≤ w :=
      le_trans (min_le_right _ _) (min_le_left _ _)
    omega
  · have h1 : seedT % (h - min crop_size (min w h) + 1) < h - min crop_size (min w h) + 1 :=
      Nat.mod_lt _ (Nat.succ_pos _)
    have h2 : min crop_size (min w h) ≤ h :=
      le_trans (min_le_right _ _) (min_le_right _ _)
    omega
  · have hsw : min crop_size (min w h) ≤ w :=
      le_trans (min_le_right _ _) (min_le_left _ _)
    have hsh : min crop_size (min w h) ≤ h :=
      le_trans (min_le_right _ _) (min_le_right _ _)
    have hs1 : 1 ≤ min crop_size (min w h) := le_min hc (le_min hw hh)
    by_cases hsq : min crop_size (min w h) = w ∧ min crop_size (min w h) = h
    · right
      obtain ⟨e1, e2⟩ := hsq
      have hwc : w ≤ crop_size := e1 ▸ min_le_left _ _
      have hhc : h ≤ crop_size := e2 ▸ min_le_left _ _
      have z1 : w - min crop_size (min w h) = 0 := by omega
      have z2 : h - min crop_size (min w h) = 0 := by omega
      refine ⟨?_, hwc, hhc⟩
      simp only [crop_random_region, pyRandint, z1, z2, Nat.mod_one, Nat.zero_add,
        CropBox.mk.injEq]
      exact ⟨trivial, trivial, e1, e2⟩
    · left
      have hlt : min crop_size (min w h) < w ∨ min crop_size (min w h) < h := by
        rcases Nat.lt_or_ge (min crop_size (min w h)) w with hx | hx
        · exact Or.inl hx
        · refine Or.inr ?_
          have : min crop_size (min w h) = w := le_antisymm hsw hx
          omega
      rcases hlt with hx | hx
      · calc min crop_size (min w h) * min crop_size (min w h)
            ≤ min crop_size (min w h) * h := Nat.mul_le_mul_left _ hsh
          _ < w * h := Nat.mul_lt_mul_of_lt_of_le hx (le_refl h) (by omega)
      · calc min crop_size (min w h) * min crop_size (min w h)
            ≤ w * min crop_size (min w h) := Nat.mul_le_mul_right _ hsw
          _ < w * h := Nat.mul_lt_mul_of_le_of_lt (le_refl w) hx (by omega)

/-- Witness for C8 at crop size 2 on a 3 by 4 source with concrete seeds. -/
theorem C8_witness :
    1 ≤ 3 ∧ 1 ≤ 4 ∧ 1 ≤ 2 ∧
    ∃ s left top,
      crop_random_region 2 3 4 7 5 = ⟨left, top, left + s, top + s⟩ ∧
      left + s ≤ 3 ∧ top + s ≤ 4 ∧
      (s * s < 3 * 4 ∨
        (crop_random_region 2 3 4 7 5 = ⟨0, 0, 3, 4⟩ ∧ 3 ≤ 2 ∧ 4 ≤ 2)) :=
  ⟨by decide, by decide, by decide,
   C8_crop_square_partial_in_bounds 2 3 4 7 5 (by decide) (by decide) (by decide)⟩

/-- C9 counterexample: the claim says any two distinct invocations of the
teaser-saving operation return different paths, including concurrent rounds.
The path is `cropped_{timestamp}.jpg` with the timestamp at second
resolution and the image content playing no part: two distinct invocations
(different cropped images) within the same wall-clock second return the very
same path, so one round's teaser overwrites the other's. -/
theorem C9_counterexample :
    (⟨0, 0, 1, 1⟩ : CropBox) ≠ (⟨0, 0, 2, 2⟩ : CropBox) ∧
    save_cropped_image "/d" ⟨0, 0, 1, 1⟩ "20250101120000" =
      save_cropped_image "/d" ⟨0, 0, 2, 2⟩ "20250101120000" := by
  decide

/-- C9 (amended): the artifact path is a function of the image directory and
the wall-clock second alone; two invocations collide exactly when their
formatted timestamps agree, and invocations whose timestamp strings differ
(in particular, invocations in different seconds) return different paths. -/
theorem C9_distinct_seconds_distinct_paths (image_dir : String) (i1 i2 : CropBox)
    (t1 t2 : String) (hne : t1 ≠ t2) :
    save_cropped_image image_dir i1 t1 ≠ save_cropped_image image_dir i2 t2 := by
  intro he
  apply hne
  unfold save_cropped_image at he
  have hd := congrArg String.data he
  simp only [String.data_append] at hd
  have h1 := List.append_cancel_right hd
  have h2 := List.append_cancel_left h1
  exact congrArg String.mk h2

/-- Witness for C9 (amended) at two concrete timestamps one second apart. -/
theorem C9_witness :
    "20250101120000" ≠ ("20250101120001" : String) ∧
    save_cropped_image "/d" ⟨0, 0, 1, 1⟩ "20250101120000" ≠
      save_cropped_image "/d" ⟨0, 0, 1, 1⟩ "20250101120001" :=
  ⟨by decide,
   C9_distinct_seconds_distinct_paths "/d" ⟨0, 0, 1, 1⟩ ⟨0, 0, 1, 1⟩
     "20250101120000" "20250101120001" (by decide)⟩

/-- `pySplitAux` always returns at least one piece. -/
theorem pySplitAux_ne_nil (sep : Char) (l acc : List Char) : pySplitAux sep l acc ≠ [] := by
  induction l generalizing acc with
  | nil => simp [pySplitAux]
  | cons c cs ih =>
    unfold pySplitAux
    split
    · simp
    · exact ih _

/-- The first piece of `pySplitAux` is the pending accumulator followed by
the characters up to the first separator. -/
theorem pySplitAux_head (sep : Char) (l acc : List Char) :
    (pySplitAux sep l acc).headD [] = acc.reverse ++ l.takeWhile (fun c => c ≠ sep) := by
  induction l generalizing acc with
  | nil => simp [pySplitAux]
  | cons c cs ih =>
    unfold pySplitAux
    by_cases hc : c = sep
    · simp [hc]
    · simp only [hc, if_false, List.takeWhile_cons]
      rw [ih]
      simp [hc]

/-- `str.split(sep)` never returns an empty list. -/
theorem pySplit_length_pos (sep : Char) (s : String) : 1 ≤ (pySplit sep s).length := by
  unfold pySplit
  rw [List.length_map]
  exact List.length_pos.mpr (pySplitAux_ne_nil sep s.data [])

/-- `str.split(sep)[0]` is the prefix of the string up to its first
separator. -/
theorem pySplit_head (sep : Char) (s : String) :
    (pySplit sep s).headD "" = String.mk (s.data.takeWhile (fun c => c ≠ sep)) := by
  unfold pySplit
  have hne := pySplitAux_ne_nil sep s.data []
  have hh := pySplitAux_head sep s.data []
  cases hsp : pySplitAux sep s.data [] with
  | nil => exact absurd hsp hne
  | cons x xs =>
    rw [hsp] at hh
    simp only [List.headD_cons, List.reverse_nil, List.nil_append] at hh
    simp [hh]

/-- The loop body of `get_character_images` never skips a file: the split
always has at least one piece, and its first piece is the stem up to the
first underscore. -/
theorem poolEntry_eq (file : String) :
    poolEntry file = some (upToFirstUnderscore (pyStem file), file) := by
  unfold poolEntry upToFirstUnderscore
  have h1 := pySplit_length_pos '_' (pyStem file)
  have h2 := pySplit_head '_' (pyStem file)
  rw [if_pos h1, h2]

/-- C10: the candidate pool is derived deterministically from the directory
listing: it is empty when `image_dir` is not a directory; otherwise it has
exactly one entry per `*.jpg` file, each entry pairing the file with the
file's stem up to the first underscore (the whole stem when there is no
underscore), and no non-`.jpg` file ever contributes an entry. -/
theorem C10_pool_characterization :
    (∀ listing : List String, get_character_images false listing = []) ∧
    (∀ listing : List String,
      (get_character_images true listing).length = (listing.filter isJpg).length) ∧
    (∀ (listing : List String) (file : String), file ∈ listing → isJpg file = true →
      (upToFirstUnderscore (pyStem file), file) ∈ get_character_images true listing) ∧
    (∀ (listing : List String) (c f : String), (c, f) ∈ get_character_images true listing →
      f ∈ listing ∧ isJpg f = true ∧ c = upToFirstUnderscore (pyStem f)) := by
  refine ⟨fun listing => rfl, ?_, ?_, ?_⟩
  · intro listing
    unfold get_character_images
    rw [if_neg (by simp)]
    induction listing.filter isJpg with
    | nil => rfl
    | cons a as ih => simp [List.filterMap_cons, poolEntry_eq a, ih]
  · intro listing file hmem hjpg
    unfold get_character_images
    rw [if_neg (by simp)]
    exact List.mem_filterMap.mpr
      ⟨file, List.mem_filter.mpr ⟨hmem, hjpg⟩, poolEntry_eq file⟩
  · intro listing c f hmem
    unfold get_character_images at hmem
    rw [if_neg (by simp)] at hmem
    obtain ⟨a, ha, he⟩ := List.mem_filterMap.mp hmem
    rw [poolEntry_eq a] at he
    obtain ⟨he1, he2⟩ := Prod.mk.injEq .. ▸ Option.some.injEq .. ▸ he
    have haf := List.mem_filter.mp ha
    subst he2
    exact ⟨haf.1, haf.2, he1.symm⟩

/-- Witness for C10 on a concrete listing with one jpg and one non-jpg file. -/
theorem C10_witness :
    "初音未来_01.jpg" ∈ ["初音未来_01.jpg", "readme.txt"] ∧
    isJpg "初音未来_01.jpg" = true ∧
    ("初音未来", "初音未来_01.jpg") ∈
      get_character_images true ["初音未来_01.jpg", "readme.txt"] := by
  refine ⟨by decide, by decide, ?_⟩
  have h := C10_pool_characterization.2.2.1 ["初音未来_01.jpg", "readme.txt"]
    "初音未来_01.jpg" (by decide) (by decide)
  have e : upToFirstUnderscore (pyStem "初音未来_01.jpg") = "初音未来" := by decide
  rw [e] at h
  exact h
